import Mathlib

/-!
Verification of the DSEC_Object-Detection repository core against its design
specification.  The development shallowly embeds the pose-estimation model
(src/inference/model.py, class PoseEstimationModel) and the camera-calibration
script (src/camera_calibration/calibration.py) in Lean.

Pixel coordinates and physical dimensions are modelled as rationals.  The two
external numerical solvers (the YOLO detector and cv2.solvePnPRansac) are
modelled as oracle functions passed explicitly: the detector output is the
list of (class index, 2D keypoints) pairs a frame produced, and the PnP solver
is a function returning an optional (rvec, tvec) pair, none meaning pnp_ok was
false.  A Python IndexError is modelled with Except.
-/

/-- A 2D point in pixel coordinates. -/
abbrev Point2 : Type := ℚ × ℚ

/-- A 3D point in object coordinates. -/
abbrev Point3 : Type := ℚ × ℚ × ℚ

/-- A rotation or translation vector returned by the PnP solver. -/
abbrev Vec3 : Type := ℚ × ℚ × ℚ

/-- One entry of PoseEstimationModel.registered_obj: the dict with keys
name and dim appended by add_object (model.py lines 29-32). -/
structure Obj where
  name : String
  dim : List ℚ
deriving DecidableEq, Repr

/-- Errors a modelled Python fragment can raise. -/
inductive PyError where
  | indexError
deriving DecidableEq, Repr

/-- PoseEstimationModel.add_object (model.py lines 23-33): appends a new
entry to registered_obj. -/
def add_object (reg : List Obj) (obj_name : String) (obj_dim : List ℚ) : List Obj :=
  reg ++ [⟨obj_name, obj_dim⟩]

/-- PoseEstimationModel.remove_object (model.py lines 35-45): keeps every
entry whose name differs from obj_name. -/
def remove_object (reg : List Obj) (obj_name : String) : List Obj :=
  reg.filter (fun o => o.name != obj_name)

/-- The 9-point cuboid template built by get_object_3D_points
(model.py lines 85-95): 8 corners in the fixed keypoint-map order
(front-base-right, front-top-right, back-top-right, back-base-right,
front-base-left, front-top-left, back-top-left, back-base-left) followed by
the centroid. -/
def objectPoints (length width height : ℚ) : List Point3 :=
  [ (length/2, -(width/2), -(height/2)),
    (length/2, -(width/2),  height/2),
    (length/2,  width/2,  height/2),
    (length/2,  width/2, -(height/2)),
    (-(length/2), -(width/2), -(height/2)),
    (-(length/2), -(width/2),  height/2),
    (-(length/2),  width/2,  height/2),
    (-(length/2),  width/2, -(height/2)),
    (0, 0, 0) ]

/-- PoseEstimationModel.get_object_3D_points (model.py lines 47-97): indexes
registered_obj with obj_idx and reads dim entries 0, 1, 2.  An out-of-range
registry index or a dimension list shorter than 3 raises IndexError in
Python, modelled as Except.error. -/
def get_object_3D_points (reg : List Obj) (obj_idx : Nat) : Except PyError (List Point3) :=
  match reg[obj_idx]? with
  | none => .error .indexError
  | some o =>
    match o.dim[0]?, o.dim[1]?, o.dim[2]? with
    | some length, some width, some height => .ok (objectPoints length width height)
    | _, _, _ => .error .indexError

/-- The loop body of PoseEstimationModel.estimate_pose (model.py lines
122-149), with the accumulated frame_rvecs and frame_tvecs made explicit.
An instance with fewer than 9 keypoints triggers the early
return annotated_image, [], [] of line 127; a successful PnP solve appends
one rvec and one tvec; a failed solve appends nothing. -/
def poseLoop (reg : List Obj) (pnp : List Point3 → List Point2 → Option (Vec3 × Vec3)) :
    List (Nat × List Point2) → List Vec3 → List Vec3 → Except PyError (List Vec3 × List Vec3)
  | [], frame_rvecs, frame_tvecs => .ok (frame_rvecs, frame_tvecs)
  | (obj_class, keypoints) :: rest, frame_rvecs, frame_tvecs =>
    if keypoints.length < 9 then
      .ok ([], [])
    else
      match get_object_3D_points reg obj_class with
      | .error e => .error e
      | .ok object_points =>
        match pnp object_points keypoints with
        | some rt => poseLoop reg pnp rest (frame_rvecs ++ [rt.1]) (frame_tvecs ++ [rt.2])
        | none => poseLoop reg pnp rest frame_rvecs frame_tvecs

/-- PoseEstimationModel.estimate_pose (model.py lines 114-149) restricted to
its pose outputs: detections is the zipped detector output for one frame and
pnp the cv2.solvePnPRansac oracle.  The annotated image is passed through
unchanged by the source and is omitted here. -/
def estimate_pose (reg : List Obj) (pnp : List Point3 → List Point2 → Option (Vec3 × Vec3))
    (detections : List (Nat × List Point2)) : Except PyError (List Vec3 × List Vec3) :=
  poseLoop reg pnp detections [] []

/-- Concrete registry with one object, used to evaluate the theorems. -/
def regW : List Obj := [⟨"box", [2, 4, 6]⟩]

/-- Concrete registry produced by registering the same name twice. -/
def regDup : List Obj := add_object (add_object [] "cookie" [1, 2, 3]) "cookie" [4, 5, 6]

/-- A 9-point observed keypoint list. -/
def kps9 : List Point2 := [(0,0), (1,0), (2,0), (3,0), (4,0), (5,0), (6,0), (7,0), (8,0)]

/-- A 5-point observed keypoint list, as in the end-to-end scenario of the
spec. -/
def kps5 : List Point2 := [(0,0), (1,0), (2,0), (3,0), (4,0)]

/-- A PnP oracle that always succeeds with a fixed pose. -/
def pnpC : List Point3 → List Point2 → Option (Vec3 × Vec3) :=
  fun _ _ => some ((1, 0, 0), (0, 0, 5))

/-- Claim C7: remove_object is idempotent, and removing a never-registered
name is a no-op; no error is raised (remove_object is a total function). -/
theorem remove_object_idempotent (reg : List Obj) (n : String) :
    remove_object (remove_object reg n) n = remove_object reg n ∧
    (reg.filter (fun o => o.name == n) = [] → remove_object reg n = reg) := by
  constructor
  · unfold remove_object
    rw [List.filter_filter]
    simp
  · intro hnone
    unfold remove_object
    rw [List.filter_eq_self]
    intro o ho
    have h := List.filter_eq_nil_iff.mp hnone o ho
    simpa using h

/-- Witness for claim C7 at concrete registries. -/
theorem remove_object_idempotent_witness :
    remove_object (remove_object regDup "cookie") "cookie" = remove_object regDup "cookie" ∧
    remove_object regW "missing" = regW :=
  ⟨(remove_object_idempotent regDup "cookie").1,
   (remove_object_idempotent regW "missing").2 rfl⟩

/-- Counterexample to claim C5: registering the name cookie a second time
leaves two entries named cookie in the registry, not exactly one, and the
first still holds the old dimensions. -/
theorem duplicate_register_overwrites_cex :
    (regDup.filter (fun o => o.name == "cookie")).length = 2 ∧
    regDup = [⟨"cookie", [1, 2, 3]⟩, ⟨"cookie", [4, 5, 6]⟩] :=
  ⟨rfl, rfl⟩

/-- Claim C5 (amended): registering an already-registered name does not
overwrite: add_object appends a new entry at the end, after which the
registry holds at least two entries for that name; no error is raised. -/
theorem duplicate_register_appends (reg : List Obj) (n : String) (d : List ℚ)
    (hdup : 1 ≤ (reg.filter (fun o => o.name == n)).length) :
    add_object reg n d = reg ++ [⟨n, d⟩] ∧
    2 ≤ ((add_object reg n d).filter (fun o => o.name == n)).length := by
  refine ⟨rfl, ?_⟩
  unfold add_object
  rw [List.filter_append]
  simp only [List.length_append]
  have hone : (List.filter (fun o => o.name == n) [(⟨n, d⟩ : Obj)]).length = 1 := by
    simp [List.filter]
  omega

/-- Witness for claim C5 (amended) at a concrete registry. -/
theorem duplicate_register_appends_witness :
    add_object [(⟨"cookie", [1, 2, 3]⟩ : Obj)] "cookie" [4, 5, 6] =
      [⟨"cookie", [1, 2, 3]⟩] ++ [⟨"cookie", [4, 5, 6]⟩] ∧
    2 ≤ ((add_object [(⟨"cookie", [1, 2, 3]⟩ : Obj)] "cookie" [4, 5, 6]).filter
      (fun o => o.name == "cookie")).length :=
  duplicate_register_appends [⟨"cookie", [1, 2, 3]⟩] "cookie" [4, 5, 6] (by norm_num)

/-- Helper: when the accumulators have equal length, a successful poseLoop run
returns lists of equal length. -/
lemma poseLoop_ok_length (reg : List Obj)
    (pnp : List Point3 → List Point2 → Option (Vec3 × Vec3)) :
    ∀ (dets : List (Nat × List Point2)) (rv tv : List Vec3)
      (out : List Vec3 × List Vec3),
      rv.length = tv.length → poseLoop reg pnp dets rv tv = Except.ok out →
      out.1.length = out.2.length := by
  intro dets
  induction dets with
  | nil =>
    intro rv tv out hlen hok
    simp only [poseLoop, Except.ok.injEq] at hok
    rw [← hok]
    simpa using hlen
  | cons head rest ih =>
    obtain ⟨obj_class, keypoints⟩ := head
    intro rv tv out hlen hok
    simp only [poseLoop] at hok
    split at hok
    · simp only [Except.ok.injEq] at hok
      rw [← hok]
    · split at hok
      · exact absurd hok (by simp)
      · split at hok
        · exact ih _ _ _ (by simpa using hlen) hok
        · exact ih _ _ _ hlen hok

/-- Claim C9: on every frame the returned rotation-vector and
translation-vector lists have equal length, and a failed PnP solve appends to
neither list: with at least 9 keypoints and a registered class, an instance
whose solve fails leaves the result equal to that of the remaining
instances. -/
theorem estimate_pose_parallel_vecs (reg : List Obj)
    (pnp : List Point3 → List Point2 → Option (Vec3 × Vec3))
    (dets : List (Nat × List Point2)) :
    (∀ rv tv, estimate_pose reg pnp dets = Except.ok (rv, tv) →
      rv.length = tv.length) ∧
    (∀ obj_class keypoints object_points rest,
      dets = (obj_class, keypoints) :: rest →
      9 ≤ keypoints.length →
      get_object_3D_points reg obj_class = Except.ok object_points →
      pnp object_points keypoints = none →
      estimate_pose reg pnp dets = estimate_pose reg pnp rest) := by
  constructor
  · intro rv tv hok
    exact poseLoop_ok_length reg pnp dets [] [] (rv, tv) rfl hok
  · intro obj_class keypoints object_points rest hdets hk hget hpnp
    subst hdets
    simp only [estimate_pose, poseLoop, hget, hpnp]
    rw [if_neg (by omega)]

/-- Witness for claim C9: a concrete frame whose single instance solves,
giving one rvec and one tvec. -/
theorem estimate_pose_parallel_vecs_witness :
    ([((1:ℚ), 0, 0)] : List Vec3).length = ([((0:ℚ), 0, 5)] : List Vec3).length :=
  (estimate_pose_parallel_vecs regW pnpC [(0, kps9)]).1 [(1, 0, 0)] [(0, 0, 5)] rfl

/-- Counterexample to claim C1: a frame whose first instance solves and whose
second instance has only 5 keypoints returns empty pose lists for the whole
frame, so the first instance's pose (which the same frame without the short
instance does produce) is wiped and not, as claimed, unaffected. -/
theorem short_keypoints_confined_cex :
    estimate_pose regW pnpC [(0, kps9), (0, kps5)] = Except.ok ([], []) ∧
    estimate_pose regW pnpC [(0, kps9)] =
      Except.ok ([((1:ℚ), 0, 0)], [((0:ℚ), 0, 5)]) :=
  ⟨rfl, rfl⟩

/-- Claim C1 (amended): an instance with fewer than 9 observed keypoints
aborts the whole frame: estimate_pose returns immediately with empty rotation
and translation lists, discarding the accumulated results of earlier
instances and never processing later ones; no exception is raised for this
case. -/
theorem short_keypoints_abort_frame (reg : List Obj)
    (pnp : List Point3 → List Point2 → Option (Vec3 × Vec3))
    (obj_class : Nat) (keypoints : List Point2) (rest : List (Nat × List Point2))
    (rv tv : List Vec3) (hk : keypoints.length < 9) :
    poseLoop reg pnp ((obj_class, keypoints) :: rest) rv tv = Except.ok ([], []) ∧
    estimate_pose reg pnp ((obj_class, keypoints) :: rest) = Except.ok ([], []) := by
  constructor <;> simp [estimate_pose, poseLoop, hk]

/-- Witness for claim C1 (amended): a 5-keypoint instance aborts a frame even
with nonempty accumulators. -/
theorem short_keypoints_abort_frame_witness :
    poseLoop regW pnpC [(0, kps5)] [(1, 0, 0)] [(0, 0, 5)] = Except.ok ([], []) ∧
    estimate_pose regW pnpC [(0, kps5)] = Except.ok ([], []) :=
  short_keypoints_abort_frame regW pnpC 0 kps5 [] [(1, 0, 0)] [(0, 0, 5)] (by norm_num [kps5])

/-- Counterexample to claim C2: class index 1 has no registered object in the
one-entry registry regW; the frame raises IndexError instead of skipping the
instance, and the other instance of the frame (which alone would produce a
pose) is not processed. -/
theorem unregistered_class_skip_cex :
    estimate_pose regW pnpC [(1, kps9), (0, kps9)] = Except.error PyError.indexError ∧
    estimate_pose regW pnpC [(0, kps9)] =
      Except.ok ([((1:ℚ), 0, 0)], [((0:ℚ), 0, 5)]) :=
  ⟨rfl, rfl⟩

/-- Claim C2 (amended): an instance whose class index has no registered
object makes get_object_3D_points raise IndexError, which propagates out of
estimate_pose and aborts the frame; the instance is not skipped and later
instances are not processed. -/
theorem unregistered_class_raises (reg : List Obj)
    (pnp : List Point3 → List Point2 → Option (Vec3 × Vec3))
    (obj_class : Nat) (keypoints : List Point2) (rest : List (Nat × List Point2))
    (hk : 9 ≤ keypoints.length) (hnone : reg[obj_class]? = none) :
    estimate_pose reg pnp ((obj_class, keypoints) :: rest) =
      Except.error PyError.indexError := by
  simp only [estimate_pose, poseLoop, get_object_3D_points, hnone]
  rw [if_neg (by omega)]

/-- Witness for claim C2 (amended): class index 5 in the one-entry registry. -/
theorem unregistered_class_raises_witness :
    estimate_pose regW pnpC [(5, kps9)] = Except.error PyError.indexError :=
  unregistered_class_raises regW pnpC 5 kps9 [] (by norm_num [kps9]) rfl

/-- The eight cuboid corner names, in the vocabulary of the keypoint map of
model.py and of the fixed enumeration order of the spec. -/
inductive CornerName where
  | frontBaseRight | frontTopRight | backTopRight | backBaseRight
  | frontBaseLeft | frontTopLeft | backTopLeft | backBaseLeft
deriving DecidableEq, Repr

/-- The fixed enumeration order of the spec: front-base-right,
front-top-right, back-top-right, back-base-right, front-base-left,
front-top-left, back-top-left, back-base-left. -/
def enumOrder : List CornerName :=
  [.frontBaseRight, .frontTopRight, .backTopRight, .backBaseRight,
   .frontBaseLeft, .frontTopLeft, .backTopLeft, .backBaseLeft]

/-- The sign permutation of (length/2, width/2, height/2) a corner name
denotes, reading right/left as the sign of the first coordinate, front/back
as the sign of the second and base/top as the sign of the third, as fixed by
the keypoint map of model.py lines 54-70. -/
def specCorner (l w h : ℚ) : CornerName → Point3
  | .frontBaseRight => (l/2, -(w/2), -(h/2))
  | .frontTopRight => (l/2, -(w/2), h/2)
  | .backTopRight => (l/2, w/2, h/2)
  | .backBaseRight => (l/2, w/2, -(h/2))
  | .frontBaseLeft => (-(l/2), -(w/2), -(h/2))
  | .frontTopLeft => (-(l/2), -(w/2), h/2)
  | .backTopLeft => (-(l/2), w/2, h/2)
  | .backBaseLeft => (-(l/2), w/2, -(h/2))

/-- The spec-side template: the 8 sign permutations in the fixed enumeration
order, followed by the centroid (0, 0, 0) as the 9th point. -/
def specTemplate (l w h : ℚ) : List Point3 :=
  enumOrder.map (specCorner l w h) ++ [(0, 0, 0)]

/-- The (isLeft, isBack, isTop) pattern read directly off a corner name; it
records which of the two signs each coordinate takes. -/
def cornerPattern : CornerName → Bool × Bool × Bool
  | .frontBaseRight => (false, false, false)
  | .frontTopRight => (false, false, true)
  | .backTopRight => (false, true, true)
  | .backBaseRight => (false, true, false)
  | .frontBaseLeft => (true, false, false)
  | .frontTopLeft => (true, false, true)
  | .backTopLeft => (true, true, true)
  | .backBaseLeft => (true, true, false)

/-- Claim C4: for a registered object whose dimension entries 0, 1, 2 are
l, w, h, the returned template is exactly the spec template: 9 points, the
9th the origin, the first 8 the sign permutations of
(l/2, w/2, h/2) in the fixed enumeration order; the enumeration covers all
8 sign combinations, each exactly once. -/
theorem template_matches_spec (reg : List Obj) (obj_idx : Nat) (o : Obj) (l w h : ℚ)
    (hreg : reg[obj_idx]? = some o)
    (h0 : o.dim[0]? = some l) (h1 : o.dim[1]? = some w) (h2 : o.dim[2]? = some h) :
    get_object_3D_points reg obj_idx = Except.ok (specTemplate l w h) ∧
    (specTemplate l w h).length = 9 ∧
    (specTemplate l w h).getLast? = some ((0:ℚ), 0, 0) ∧
    objectPoints l w h = specTemplate l w h ∧
    (enumOrder.map cornerPattern).Nodup ∧
    (enumOrder.map cornerPattern).length = 8 := by
  have hobj : objectPoints l w h = specTemplate l w h := by
    simp [objectPoints, specTemplate, enumOrder, specCorner]
  refine ⟨?_, by simp [specTemplate, enumOrder], by simp [specTemplate],
    hobj, by decide, by decide⟩
  rw [← hobj]
  simp [get_object_3D_points, hreg, h0, h1, h2]

/-- Witness for claim C4 at the concrete registry regW. -/
theorem template_matches_spec_witness :
    get_object_3D_points regW 0 = Except.ok (specTemplate 2 4 6) ∧
    (specTemplate (2:ℚ) 4 6).length = 9 ∧
    (specTemplate (2:ℚ) 4 6).getLast? = some ((0:ℚ), 0, 0) ∧
    objectPoints 2 4 6 = specTemplate 2 4 6 ∧
    (enumOrder.map cornerPattern).Nodup ∧
    (enumOrder.map cornerPattern).length = 8 :=
  template_matches_spec regW 0 ⟨"box", [2, 4, 6]⟩ 2 4 6 rfl rfl rfl rfl

/-- Helper: a registered class index with at least 3 dimension entries makes
get_object_3D_points succeed. -/
lemma get3D_ok_of_registered (reg : List Obj) (obj_class : Nat) (o : Obj)
    (hreg : reg[obj_class]? = some o) (hd : 3 ≤ o.dim.length) :
    ∃ pts, get_object_3D_points reg obj_class = Except.ok pts := by
  have e0 : o.dim[0]? = some (o.dim.get ⟨0, by omega⟩) := List.getElem?_eq_getElem (by omega)
  have e1 : o.dim[1]? = some (o.dim.get ⟨1, by omega⟩) := List.getElem?_eq_getElem (by omega)
  have e2 : o.dim[2]? = some (o.dim.get ⟨2, by omega⟩) := List.getElem?_eq_getElem (by omega)
  exact ⟨objectPoints (o.dim.get ⟨0, by omega⟩) (o.dim.get ⟨1, by omega⟩)
    (o.dim.get ⟨2, by omega⟩), by simp only [get_object_3D_points, hreg, e0, e1, e2]⟩

/-- Helper: when every detected class is registered with at least 3
dimension entries, poseLoop never returns an error. -/
lemma poseLoop_ok_of_registered (reg : List Obj)
    (pnp : List Point3 → List Point2 → Option (Vec3 × Vec3)) :
    ∀ (dets : List (Nat × List Point2)) (rv tv : List Vec3),
      (∀ ck ∈ dets, ∃ o, reg[ck.1]? = some o ∧ 3 ≤ o.dim.length) →
      ∃ out, poseLoop reg pnp dets rv tv = Except.ok out := by
  intro dets
  induction dets with
  | nil => intro rv tv _; exact ⟨(rv, tv), rfl⟩
  | cons head rest ih =>
    obtain ⟨obj_class, keypoints⟩ := head
    intro rv tv hreg
    by_cases hk : keypoints.length < 9
    · exact ⟨([], []), by simp [poseLoop, hk]⟩
    · obtain ⟨o, ho, hd⟩ := hreg (obj_class, keypoints) (by simp)
      obtain ⟨pts, hpts⟩ := get3D_ok_of_registered reg obj_class o ho hd
      have hrest : ∀ ck ∈ rest, ∃ o, reg[ck.1]? = some o ∧ 3 ≤ o.dim.length :=
        fun ck hck => hreg ck (List.mem_cons_of_mem _ hck)
      cases hpnp : pnp pts keypoints with
      | some rt =>
        obtain ⟨out, hout⟩ := ih (rv ++ [rt.1]) (tv ++ [rt.2]) hrest
        exact ⟨out, by simp only [poseLoop, hpts, hpnp, if_neg hk]; exact hout⟩
      | none =>
        obtain ⟨out, hout⟩ := ih rv tv hrest
        exact ⟨out, by simp only [poseLoop, hpts, hpnp, if_neg hk]; exact hout⟩

/-- Helper: with a PnP oracle that never succeeds and every class registered,
poseLoop ends in its accumulators or in the early-return empty pair. -/
lemma poseLoop_none_pnp (reg : List Obj) :
    ∀ (dets : List (Nat × List Point2)) (rv tv : List Vec3),
      (∀ ck ∈ dets, ∃ o, reg[ck.1]? = some o ∧ 3 ≤ o.dim.length) →
      poseLoop reg (fun _ _ => none) dets rv tv = Except.ok (rv, tv) ∨
      poseLoop reg (fun _ _ => none) dets rv tv = Except.ok ([], []) := by
  intro dets
  induction dets with
  | nil => intro rv tv _; exact Or.inl rfl
  | cons head rest ih =>
    obtain ⟨obj_class, keypoints⟩ := head
    intro rv tv hreg
    by_cases hk : keypoints.length < 9
    · exact Or.inr (by simp [poseLoop, hk])
    · obtain ⟨o, ho, hd⟩ := hreg (obj_class, keypoints) (by simp)
      obtain ⟨pts, hpts⟩ := get3D_ok_of_registered reg obj_class o ho hd
      have hrest : ∀ ck ∈ rest, ∃ o, reg[ck.1]? = some o ∧ 3 ≤ o.dim.length :=
        fun ck hck => hreg ck (List.mem_cons_of_mem _ hck)
      have hstep : poseLoop reg (fun _ _ => none) ((obj_class, keypoints) :: rest) rv tv =
          poseLoop reg (fun _ _ => none) rest rv tv := by
        simp only [poseLoop, hpts, if_neg hk]
      rw [hstep]
      exact ih rv tv hrest

/-- Counterexample to claim C3: with an empty registry, a frame holding a
single well-formed 9-keypoint instance makes estimate_pose raise IndexError;
a whole-frame failure is not returned as a successful result, contrary to
the claim that per-frame pose estimation never raises. -/
theorem estimate_pose_raises_cex :
    estimate_pose ([] : List Obj) pnpC [(0, kps9)] = Except.error PyError.indexError :=
  rfl

/-- Claim C3 (amended): estimate_pose returns only an ordered pair of
rotation- and translation-vector lists, with no parallel failure-reason list;
provided every detected class index is registered with at least 3 dimension
entries it raises no error, and a frame with zero successful instances (a PnP
oracle that never converges) still returns a successful result with empty
lists. -/
theorem estimate_pose_ok_of_registered (reg : List Obj)
    (pnp : List Point3 → List Point2 → Option (Vec3 × Vec3))
    (dets : List (Nat × List Point2))
    (hreg : ∀ ck ∈ dets, ∃ o, reg[ck.1]? = some o ∧ 3 ≤ o.dim.length) :
    (∃ out, estimate_pose reg pnp dets = Except.ok out) ∧
    estimate_pose reg (fun _ _ => none) dets = Except.ok ([], []) := by
  constructor
  · exact poseLoop_ok_of_registered reg pnp dets [] [] hreg
  · rcases poseLoop_none_pnp reg dets [] [] hreg with h | h <;> exact h

/-- Witness for claim C3 (amended) at the concrete registry regW. -/
theorem estimate_pose_ok_of_registered_witness :
    (∃ out, estimate_pose regW pnpC [(0, kps9)] = Except.ok out) ∧
    estimate_pose regW (fun _ _ => none) [(0, kps9)] = Except.ok ([], []) :=
  estimate_pose_ok_of_registered regW pnpC [(0, kps9)] (by
    intro ck hck
    rw [List.mem_singleton] at hck
    subst hck
    exact ⟨⟨"box", [2, 4, 6]⟩, rfl, by norm_num⟩)

/-- One accumulated 3D object-point sequence of calibration.py. -/
abbrev Sample3D : Type := List Point3

/-- One accumulated refined 2D corner sequence of calibration.py. -/
abbrev Sample2D : Type := List Point2

/-- The objp array of calibration.py lines 29-31: a zero matrix of
cols*rows rows whose first two columns are filled with
np.mgrid[0:cols, 0:rows].T.reshape(-1, 2) and which is then scaled by
square_size.  Row k of the reshaped grid is (k mod cols, k div cols), so
point k is ((k mod cols) * s, (k div cols) * s, 0). -/
def objp (cols rows : Nat) (square_size : ℚ) : List Point3 :=
  (List.range (cols * rows)).map
    (fun k => (((k % cols : ℕ) : ℚ) * square_size, ((k / cols : ℕ) : ℚ) * square_size, 0))

/-- The per-frame body of the accumulation loops of calibration.py (lines
43-72 and 81-112), restricted to their effect on objpoints and imgpoints:
when the corner extractor finds the pattern, objp and the refined corners
are appended to the two lists; otherwise both lists are left unchanged. -/
def calibStep {γ : Type} (detect : γ → Option Sample2D) (objpattern : Sample3D)
    (acc : List Sample3D × List Sample2D) (frame : γ) : List Sample3D × List Sample2D :=
  match detect frame with
  | some corners2 => (acc.1 ++ [objpattern], acc.2 ++ [corners2])
  | none => acc

/-- The whole accumulation phase of one calibration run: fold calibStep over
the ordered frames, starting from the empty objpoints and imgpoints of
calibration.py lines 33-34.  detect models cv2.findChessboardCorners plus
cv2.cornerSubPix as one oracle per frame. -/
def accumulate {γ : Type} (detect : γ → Option Sample2D) (objpattern : Sample3D)
    (frames : List γ) : List Sample3D × List Sample2D :=
  frames.foldl (calibStep detect objpattern) ([], [])

/-- Outcome of the post-loop code of calibration.py lines 117-131. -/
structure RunReport where
  solveAttempted : Bool
  message : Option String
  exitCode : Nat
deriving DecidableEq, Repr

/-- The failure message printed by calibration.py line 126 when no sample
was accepted. -/
def noValidPatternsMsg : String :=
  "No valid checkerboard patterns were detected. Calibration failed."

/-- The per-frame diagnostic printed by calibration.py line 111 when the
pattern is not found in a frame. -/
def frameNotDetectedMsg (frame_index : Nat) : String :=
  "[Frame " ++ toString frame_index ++ "] Checkerboard NOT detected."

/-- The end of main in calibration.py (lines 117-131): cv2.calibrateCamera
is invoked only when both accumulated lists are nonempty; otherwise the
failure message is printed.  Either way main falls through to the summary
and returns, so the process exit status is 0. -/
def calibrationFinish (objpoints : List Sample3D) (imgpoints : List Sample2D) : RunReport :=
  if !objpoints.isEmpty && !imgpoints.isEmpty then
    ⟨true, none, 0⟩
  else
    ⟨false, some noValidPatternsMsg, 0⟩

/-- Helper: a fold of calibStep over frames in which the extractor never
succeeds leaves the accumulator unchanged. -/
lemma foldl_calibStep_none {γ : Type} (detect : γ → Option Sample2D) (pat : Sample3D) :
    ∀ (frames : List γ) (acc : List Sample3D × List Sample2D),
      (∀ f ∈ frames, detect f = none) →
      frames.foldl (calibStep detect pat) acc = acc := by
  intro frames
  induction frames with
  | nil => intro acc _; rfl
  | cons f rest ih =>
    intro acc hnone
    have hf : detect f = none := hnone f (by simp)
    have hrest : ∀ g ∈ rest, detect g = none :=
      fun g hg => hnone g (List.mem_cons_of_mem _ hg)
    simp only [List.foldl_cons, calibStep, hf]
    exact ih acc hrest

/-- Helper: the fold of calibStep preserves the per-run sample invariants:
equal accumulated lengths, every 3D sample equal to the fixed pattern, every
2D sample of the extractor-guaranteed length. -/
lemma foldl_calibStep_inv {γ : Type} (detect : γ → Option Sample2D) (pat : Sample3D)
    (n : Nat) (hdet : ∀ f cs, detect f = some cs → cs.length = n) :
    ∀ (frames : List γ) (acc : List Sample3D × List Sample2D),
      acc.1.length = acc.2.length →
      (∀ o ∈ acc.1, o = pat) →
      (∀ im ∈ acc.2, im.length = n) →
      (frames.foldl (calibStep detect pat) acc).1.length =
        (frames.foldl (calibStep detect pat) acc).2.length ∧
      (∀ o ∈ (frames.foldl (calibStep detect pat) acc).1, o = pat) ∧
      (∀ im ∈ (frames.foldl (calibStep detect pat) acc).2, im.length = n) := by
  intro frames
  induction frames with
  | nil => intro acc h1 h2 h3; exact ⟨h1, h2, h3⟩
  | cons f rest ih =>
    intro acc h1 h2 h3
    simp only [List.foldl_cons]
    cases hf : detect f with
    | none =>
      have hstep : calibStep detect pat acc f = acc := by
        simp [calibStep, hf]
      rw [hstep]
      exact ih acc h1 h2 h3
    | some cs =>
      have hstep : calibStep detect pat acc f = (acc.1 ++ [pat], acc.2 ++ [cs]) := by
        simp [calibStep, hf]
      rw [hstep]
      refine ih _ (by simp [h1]) ?_ ?_
      · intro o ho
        rcases List.mem_append.mp ho with ho | ho
        · exact h2 o ho
        · simpa using ho
      · intro im him
        rcases List.mem_append.mp him with him | him
        · exact h3 im him
        · rw [List.mem_singleton.mp him]
          exact hdet f cs hf

/-- Helper: the length of objp. -/
lemma objp_length (cols rows : Nat) (square_size : ℚ) :
    (objp cols rows square_size).length = cols * rows := by
  simp [objp]

/-- Helper: every point of objp has third coordinate 0. -/
lemma objp_planar (cols rows : Nat) (square_size : ℚ) :
    ∀ p ∈ objp cols rows square_size, p.2.2 = 0 := by
  intro p hp
  simp only [objp, List.mem_map] at hp
  obtain ⟨k, _, rfl⟩ := hp
  rfl

/-- Helper: point k of objp is ((k mod cols) * s, (k div cols) * s, 0), the
row-major scan of the grid with spacing s. -/
lemma objp_grid (cols rows : Nat) (square_size : ℚ) (k : Nat) (hk : k < cols * rows) :
    (objp cols rows square_size)[k]? =
      some (((k % cols : ℕ) : ℚ) * square_size, ((k / cols : ℕ) : ℚ) * square_size, 0) := by
  simp [objp, List.getElem?_range hk]

/-- Claim C8: each accepted sample pairs the fixed 3D pattern with a 2D
corner sequence of the same length cols * rows, the pattern is planar
(Z = 0) and laid out in row-major scan order with spacing square_size, the
same pattern is used for every sample of the run, and the two accumulated
lists always have equal length. -/
theorem calibration_sample_invariants {γ : Type} (detect : γ → Option Sample2D)
    (cols rows : Nat) (square_size : ℚ) (frames : List γ)
    (hdet : ∀ f cs, detect f = some cs → cs.length = cols * rows) :
    (accumulate detect (objp cols rows square_size) frames).1.length =
      (accumulate detect (objp cols rows square_size) frames).2.length ∧
    (∀ o ∈ (accumulate detect (objp cols rows square_size) frames).1,
      o = objp cols rows square_size) ∧
    (∀ im ∈ (accumulate detect (objp cols rows square_size) frames).2,
      im.length = cols * rows) ∧
    (objp cols rows square_size).length = cols * rows ∧
    (∀ p ∈ objp cols rows square_size, p.2.2 = 0) ∧
    (∀ k, k < cols * rows →
      (objp cols rows square_size)[k]? =
        some (((k % cols : ℕ) : ℚ) * square_size, ((k / cols : ℕ) : ℚ) * square_size, 0)) := by
  obtain ⟨h1, h2, h3⟩ := foldl_calibStep_inv detect (objp cols rows square_size)
    (cols * rows) hdet frames ([], []) rfl (by simp) (by simp)
  exact ⟨h1, h2, h3, objp_length cols rows square_size,
    objp_planar cols rows square_size, fun k hk => objp_grid cols rows square_size k hk⟩

/-- A concrete corner extractor for the witnesses: always finds a 4-corner
pattern. -/
def detC : Unit → Option Sample2D := fun _ => some (List.replicate 4 ((0:ℚ), 0))

/-- Witness for claim C8: one accepted 2x2 sample with square size 1;
the accumulated lists have equal length and grid point 3 sits at (1, 1, 0). -/
theorem calibration_sample_invariants_witness :
    (accumulate detC (objp 2 2 1) [()]).1.length =
      (accumulate detC (objp 2 2 1) [()]).2.length ∧
    (objp 2 2 1)[3]? = some ((1:ℚ), (1:ℚ), (0:ℚ)) := by
  have hdet : ∀ f cs, detC f = some cs → cs.length = 2 * 2 := by
    intro f cs h
    cases h
    simp [detC]
  refine ⟨(calibration_sample_invariants detC 2 2 1 [()] hdet).1, ?_⟩
  have h3 := (calibration_sample_invariants detC 2 2 1 [()] hdet).2.2.2.2.2 3 (by norm_num)
  simpa using h3

/-- Counterexample to claim C6: with zero accepted samples the run ends with
process exit status 0, not the claimed non-zero status (the solve step is
indeed not attempted). -/
theorem zero_samples_nonzero_status_cex :
    (calibrationFinish [] []).exitCode = 0 ∧
    (calibrationFinish [] []).solveAttempted = false :=
  ⟨rfl, rfl⟩

/-- Claim C6 (amended): when a calibration run accepts zero samples (the
extractor never finds the pattern, so both accumulated lists stay empty) the
solve step is not attempted and the distinct no-valid-patterns message is
printed, different from every per-frame pattern-not-found diagnostic, but
the process exits with status 0, not a non-zero status. -/
theorem zero_samples_clean_exit {γ : Type} (detect : γ → Option Sample2D)
    (objpattern : Sample3D) (frames : List γ) (imgpoints : List Sample2D)
    (hnone : ∀ f ∈ frames, detect f = none) :
    accumulate detect objpattern frames = ([], []) ∧
    (calibrationFinish [] imgpoints).solveAttempted = false ∧
    (calibrationFinish [] imgpoints).message = some noValidPatternsMsg ∧
    (calibrationFinish [] imgpoints).exitCode = 0 ∧
    (∀ i : Nat, noValidPatternsMsg ≠ frameNotDetectedMsg i) := by
  refine ⟨foldl_calibStep_none detect objpattern frames ([], []) hnone,
    by simp [calibrationFinish], by simp [calibrationFinish],
    by simp [calibrationFinish], ?_⟩
  intro i h
  have h2 := congrArg String.data h
  simp only [frameNotDetectedMsg, noValidPatternsMsg] at h2
  rw [String.data_append] at h2
  simp at h2

/-- Witness for claim C6 (amended): a one-frame run whose extractor never
succeeds. -/
theorem zero_samples_clean_exit_witness :
    accumulate (fun _ : Unit => none) (objp 2 2 1) [()] = ([], []) ∧
    (calibrationFinish [] []).solveAttempted = false ∧
    (calibrationFinish [] []).message = some noValidPatternsMsg ∧
    (calibrationFinish [] []).exitCode = 0 ∧
    (∀ i : Nat, noValidPatternsMsg ≠ frameNotDetectedMsg i) :=
  zero_samples_clean_exit (fun _ : Unit => none) (objp 2 2 1) [()] []
    (fun _ _ => rfl)

/-- The cookie_dims list of test_pose_estimation.py line 23: the intended
11.7 is written 11,7 there, so the list has four entries. -/
def cookie_dims : List ℚ := [44.5, 44.5, 11, 7]

/-- Claim C10: get_object_3D_points reads only dimension entries 0, 1 and 2:
two registered objects whose dimension lists agree on those entries yield the
same result, whatever else the lists contain; in particular the four-entry
cookie registration yields the template of its first three entries, the
fourth entry 7 being ignored. -/
theorem template_ignores_extra_dims (reg1 reg2 : List Obj) (i1 i2 : Nat) (o1 o2 : Obj)
    (hr1 : reg1[i1]? = some o1) (hr2 : reg2[i2]? = some o2)
    (e0 : o1.dim[0]? = o2.dim[0]?) (e1 : o1.dim[1]? = o2.dim[1]?)
    (e2 : o1.dim[2]? = o2.dim[2]?) :
    get_object_3D_points reg1 i1 = get_object_3D_points reg2 i2 ∧
    get_object_3D_points (add_object [] "cookie" cookie_dims) 0 =
      Except.ok (objectPoints 44.5 44.5 11) := by
  constructor
  · simp only [get_object_3D_points, hr1, hr2]
    rw [e0, e1, e2]
  · rfl

/-- Witness for claim C10: the cookie registration against a three-entry
registration with the same first three dimensions. -/
theorem template_ignores_extra_dims_witness :
    get_object_3D_points [(⟨"cookie", cookie_dims⟩ : Obj)] 0 =
      get_object_3D_points [(⟨"trimmed", [44.5, 44.5, 11]⟩ : Obj)] 0 ∧
    get_object_3D_points (add_object [] "cookie" cookie_dims) 0 =
      Except.ok (objectPoints 44.5 44.5 11) :=
  template_ignores_extra_dims [⟨"cookie", cookie_dims⟩] [⟨"trimmed", [44.5, 44.5, 11]⟩]
    0 0 ⟨"cookie", cookie_dims⟩ ⟨"trimmed", [44.5, 44.5, 11]⟩ rfl rfl rfl rfl rfl
